import Mathlib

/-!
Shallow embedding of the ESP32 simulator server (src/server.js): the
cipher-suite registry, key derivation, the JSON encryptor, the bounded
encrypted-history buffer, the data-health (freshness) evaluator, and the
HTTP handlers for /led, /fan, /settings and /sensor_encrypted.

Impure collaborators (SHA-256, the block ciphers, the random-byte source)
are passed in as explicit function parameters; timestamps are integer
milliseconds; request-body values coming from JSON are modelled by `JSVal`.
-/

namespace Esp32

/-- An entry of the `ALGORITHMS` table: cipher identifier, key length and
IV length in bytes. -/
structure AlgoProfile where
  cipher : String
  keyLen : Nat
  ivLen : Nat
deriving DecidableEq, Repr

/-- The CipherSuite registry `ALGORITHMS` from server.js: AES is
aes-256-cbc (32-byte key, 16-byte IV), DES is des-ede3-cbc (24-byte key,
8-byte IV); every other name is absent (JS property lookup yields
undefined). -/
def ALGORITHMS (name : String) : Option AlgoProfile :=
  if name = "AES" then some ⟨"aes-256-cbc", 32, 16⟩
  else if name = "DES" then some ⟨"des-ede3-cbc", 24, 8⟩
  else none

/-- `deriveKey(secret, keyLen)`: SHA-256 of the secret string, truncated to
the first `keyLen` bytes.  The hash itself is an external collaborator and
is passed in as `sha256`. -/
def deriveKey (sha256 : String → List Nat) (secret : String) (keyLen : Nat) :
    List Nat :=
  (sha256 secret).take keyLen

/-- The ciphertext envelope `{algo, iv, data}` returned by `encryptJSON`
(the base64 text encoding of `iv` and `data` is kept as raw bytes here). -/
structure Envelope where
  algo : String
  iv : List Nat
  data : List Nat
deriving DecidableEq, Repr

/-- The impure cryptographic collaborators used by server.js, made
explicit: the SHA-256 digest, the block-cipher encryption and decryption
primitives (cipher id → key → iv → bytes → bytes), and the random-byte
source `crypto.randomBytes`. -/
structure CryptoModel where
  sha256 : String → List Nat
  enc : String → List Nat → List Nat → List Nat → List Nat
  dec : String → List Nat → List Nat → List Nat → List Nat
  randBytes : Nat → List Nat

/-- `encryptJSON(data, algoName, secret)`: resolve the algorithm in
`ALGORITHMS` (throwing `Unsupported algorithm` when absent — modelled as
`Except.error`), derive the key, draw a fresh IV of `ivLen` bytes, encrypt
the serialized record, and return the self-describing envelope.
`serialize` stands for `JSON.stringify` on the record type `R`. -/
def encryptJSON {R : Type} (cm : CryptoModel) (serialize : R → List Nat)
    (data : R) (algoName : String) (secret : String) :
    Except String Envelope :=
  match ALGORITHMS algoName with
  | none => Except.error ("Unsupported algorithm: " ++ algoName)
  | some algo =>
    let key := deriveKey cm.sha256 secret algo.keyLen
    let iv := cm.randBytes algo.ivLen
    Except.ok { algo := algoName, iv := iv,
                data := cm.enc algo.cipher key iv (serialize data) }

/-- Modelled from the spec: the symmetric decrypt operation is absent from
src/server.js (the system never reads history back); spec §4.2 and §8
require it in the reimplementation so the envelope stays round-trip
decryptable by a holder of the secret.  Faithful to the spec's words: the
envelope is self-describing, so resolve `env.algo` in the registry,
re-derive the key from the secret, apply the block-cipher decryption with
the envelope's IV, and parse the plaintext back into a record. -/
def decryptJSON {R : Type} (cm : CryptoModel) (parse : List Nat → Option R)
    (env : Envelope) (secret : String) : Except String R :=
  match ALGORITHMS env.algo with
  | none => Except.error ("Unsupported algorithm: " ++ env.algo)
  | some algo =>
    let key := deriveKey cm.sha256 secret algo.keyLen
    match parse (cm.dec algo.cipher key env.iv env.data) with
    | some r => Except.ok r
    | none => Except.error ("malformed plaintext")

/-- The mutable `deviceState` object.  `lastUpdate` is an integer
millisecond timestamp; `none` models an absent/null value (the
`!deviceState.lastUpdate` check in `getDataHealth`). -/
structure DeviceState where
  led : Bool
  fan : Bool
  allowFanControl : Bool
  temperature : Int
  humidity : Int
  lastUpdate : Option Int
deriving DecidableEq, Repr

/-- A JSON value arriving in a request body or query, as far as the
handlers inspect it. -/
inductive JSVal where
  | str (s : String)
  | num (n : Int)
  | boolean (b : Bool)
  | jsNull
  | obj
deriving DecidableEq, Repr

/-- `state === 'ON' || state === 1 || state === true`. -/
def isOnVal : JSVal → Bool
  | JSVal.str "ON" => true
  | JSVal.num 1 => true
  | JSVal.boolean true => true
  | _ => false

/-- `state === 'OFF' || state === 0 || state === false`. -/
def isOffVal : JSVal → Bool
  | JSVal.str "OFF" => true
  | JSVal.num 0 => true
  | JSVal.boolean false => true
  | _ => false

/-- The health verdict computed by `getDataHealth`. -/
structure Health where
  status : String
  ageMs : Option Int
  isFresh : Bool
  lastUpdate : Option Int
deriving DecidableEq, Repr

/-- `getDataHealth()`: UNKNOWN when `lastUpdate` is absent; otherwise
`ageMs = now - lastUpdate`, with the freshness threshold
`parseInt(process.env.DATA_HEALTH_MAX_AGE_MS) || (tempInterval * 2)` —
`maxAgeEnv = none` models an unset or unparseable (NaN) variable, and a
parsed value of `0` is falsy in JS, so it also falls back to the default.
Fresh (`OK`) iff `ageMs <= maxAge`, else `STALE`. -/
def getDataHealth (now : Int) (st : DeviceState) (maxAgeEnv : Option Int)
    (tempInterval : Int) : Health :=
  match st.lastUpdate with
  | none => { status := "UNKNOWN", ageMs := none, isFresh := false,
              lastUpdate := none }
  | some t =>
    let ageMs := now - t
    let maxAge := match maxAgeEnv with
      | some m => if m = 0 then tempInterval * 2 else m
      | none => tempInterval * 2
    let isFresh : Bool := decide (ageMs ≤ maxAge)
    { status := if isFresh then "OK" else "STALE", ageMs := some ageMs,
      isFresh := isFresh, lastUpdate := some t }

/-- The freshness threshold `getDataHealth` actually uses, named for the
statements below: `parseInt(process.env.DATA_HEALTH_MAX_AGE_MS) ||
(tempInterval * 2)` — the parsed override when it is present and nonzero,
twice the update-cycle period otherwise. -/
def resolvedMaxAge (maxAgeEnv : Option Int) (tempInterval : Int) : Int :=
  match maxAgeEnv with
  | some m => if m = 0 then tempInterval * 2 else m
  | none => tempInterval * 2

/-- One append to `sensorHistory`: `push(payload)` followed by
`if (sensorHistory.length > 500) sensorHistory.shift()`. -/
def pushHistory {α : Type} (buf : List α) (e : α) : List α :=
  let b := buf ++ [e]
  if 500 < b.length then b.tail else b

/-- The history buffer produced by a whole sequence of appends starting
from the initial empty `sensorHistory`. -/
def runHistory {α : Type} (l : List α) : List α :=
  l.foldl pushHistory []

/-- Observer notifications sent through `io.emit`. -/
inductive Event where
  | temperatureUpdated (temperature humidity : Int) (timestamp : Option Int)
  | dataHealthUpdated (h : Health)
  | ledStateChanged (led : Bool) (timestamp : Option Int)
  | fanStateChanged (fan : Bool) (timestamp : Option Int)
  | settingsUpdated (allowFanControl : Bool) (encAlgo : String)
deriving DecidableEq, Repr

/-- The record `{timestamp, temperature, humidity}` encrypted into history
and served by /sensor_encrypted. -/
structure SensorRecord where
  timestamp : Option Int
  temperature : Int
  humidity : Int
deriving DecidableEq, Repr

/-- Result of one `updateSensorData` tick: the new device state, the new
history buffer, and the notifications emitted.  The function is total: a
history-encryption failure is caught (the `Except.error` branch), logged,
and the tick completes with the buffer unchanged. -/
structure TickOutcome where
  st : DeviceState
  hist : List Envelope
  events : List Event
deriving DecidableEq, Repr

/-- `updateSensorData()`: store the freshly generated `newTemp`/`newHum`
and set `lastUpdate := now`; inside try/catch, encrypt the record under
the current algorithm and append it to the bounded history (a failure is
caught and leaves the buffer untouched); then, unconditionally, emit
`temperatureUpdated` with the plain values and `dataHealthUpdated` with
the recomputed verdict. -/
def updateSensorData (cm : CryptoModel) (serialize : SensorRecord → List Nat)
    (st : DeviceState) (hist : List Envelope) (curAlgo : String)
    (secret : String) (newTemp newHum : Int) (now : Int)
    (maxAgeEnv : Option Int) (tempInterval : Int) : TickOutcome :=
  let st1 := { st with temperature := newTemp, humidity := newHum,
                       lastUpdate := some now }
  let record : SensorRecord := ⟨some now, newTemp, newHum⟩
  let hist1 := match encryptJSON cm serialize record curAlgo secret with
    | Except.ok payload => pushHistory hist payload
    | Except.error _ => hist
  let health := getDataHealth now st1 maxAgeEnv tempInterval
  { st := st1, hist := hist1,
    events := [Event.temperatureUpdated newTemp newHum (some now),
               Event.dataHealthUpdated health] }

/-- HTTP-ish response of the LED handler. -/
structure LedResponse where
  success : Bool
  led : Bool
  message : String
deriving DecidableEq, Repr

/-- Result of a POST /led call. -/
structure LedOutcome where
  st : DeviceState
  events : List Event
  response : LedResponse
deriving DecidableEq, Repr

/-- POST /led: set `led` when the value matches an ON or an OFF
representation, otherwise leave it alone; then always set `lastUpdate`,
always broadcast `ledStateChanged`, and always answer `success: true`. -/
def postLed (st : DeviceState) (state : JSVal) (now : Int) : LedOutcome :=
  let st1 :=
    if isOnVal state then { st with led := true }
    else if isOffVal state then { st with led := false }
    else st
  let st2 := { st1 with lastUpdate := some now }
  { st := st2,
    events := [Event.ledStateChanged st2.led st2.lastUpdate],
    response := { success := true, led := st2.led,
                  message := "LED " ++ (if st2.led then "ON" else "OFF") } }

/-- HTTP-ish response of the fan handler: status code plus body fields. -/
structure FanResponse where
  status : Nat
  success : Bool
  fan : Option Bool
  message : String
deriving DecidableEq, Repr

/-- Result of a POST /fan call. -/
structure FanOutcome where
  st : DeviceState
  events : List Event
  response : FanResponse
deriving DecidableEq, Repr

/-- POST /fan: a 403 `Fan control is disabled` rejection before the state
value is even inspected when `allowFanControl` is false; a 400
`Invalid fan state` rejection when the value matches neither ON nor OFF;
otherwise set `fan`, set `lastUpdate`, broadcast and answer success. -/
def postFan (st : DeviceState) (state : JSVal) (now : Int) : FanOutcome :=
  if !st.allowFanControl then
    { st := st, events := [],
      response := { status := 403, success := false, fan := none,
                    message := "Fan control is disabled" } }
  else if isOnVal state then
    let st1 := { st with fan := true, lastUpdate := some now }
    { st := st1,
      events := [Event.fanStateChanged true (some now)],
      response := { status := 200, success := true, fan := some true,
                    message := "FAN ON" } }
  else if isOffVal state then
    let st1 := { st with fan := false, lastUpdate := some now }
    { st := st1,
      events := [Event.fanStateChanged false (some now)],
      response := { status := 200, success := true, fan := some false,
                    message := "FAN OFF" } }
  else
    { st := st, events := [],
      response := { status := 400, success := false, fan := none,
                    message := "Invalid fan state" } }

/-- The request body of POST /settings: each field is `none` when the JSON
key is absent (`typeof x === 'undefined'`). -/
structure SettingsBody where
  allowFanControl : Option JSVal
  algo : Option JSVal
deriving DecidableEq, Repr

/-- JavaScript `String.prototype.toUpperCase()` restricted to the ASCII
range the handlers deal in, written as a plain character map so it is
kernel-computable. -/
def jsToUpper (s : String) : String :=
  String.mk (s.data.map Char.toUpper)

/-- The boolean coercion applied to `allowFanControl`:
`v === true || v === 'true' || v === 1 || v === '1'`. -/
def coerceFlag : JSVal → Bool
  | JSVal.boolean true => true
  | JSVal.str "true" => true
  | JSVal.num 1 => true
  | JSVal.str "1" => true
  | _ => false

/-- HTTP-ish response of the settings handler. -/
structure SettingsResponse where
  status : Nat
  success : Bool
  message : String
  allowFanControl : Option Bool
  encAlgo : Option String
  dataHealth : Option Health
deriving DecidableEq, Repr

/-- Result of a POST /settings call: the device state after the call, the
active encryption algorithm after the call, the notifications emitted, and
the response. -/
structure SettingsOutcome where
  st : DeviceState
  encAlgo : String
  events : List Event
  response : SettingsResponse
deriving DecidableEq, Repr

/-- POST /settings: first, if `allowFanControl` is present, coerce it and
store it; then, if `algo` is present and a string, upper-case it and
either switch `currentEncAlgo` (registered) or answer 400
`Invalid encryption algorithm` (unregistered) — note the flag mutation has
already happened by then.  On the success path, recompute health,
broadcast `settingsUpdated`, answer success. -/
def postSettings (st : DeviceState) (curAlgo : String) (body : SettingsBody)
    (now : Int) (maxAgeEnv : Option Int) (tempInterval : Int) :
    SettingsOutcome :=
  let st1 := match body.allowFanControl with
    | some v => { st with allowFanControl := coerceFlag v }
    | none => st
  let finish (algoNow : String) : SettingsOutcome :=
    let health := getDataHealth now st1 maxAgeEnv tempInterval
    { st := st1, encAlgo := algoNow,
      events := [Event.settingsUpdated st1.allowFanControl algoNow],
      response := { status := 200, success := true, message := "",
                    allowFanControl := some st1.allowFanControl,
                    encAlgo := some algoNow, dataHealth := some health } }
  match body.algo with
  | some (JSVal.str s) =>
    let upper := jsToUpper s
    match ALGORITHMS upper with
    | some _ => finish upper
    | none =>
      { st := st1, encAlgo := curAlgo, events := [],
        response := { status := 400, success := false,
                      message := "Invalid encryption algorithm. Use AES or DES.",
                      allowFanControl := none, encAlgo := none,
                      dataHealth := none } }
  | _ => finish curAlgo

/-- HTTP-ish response of GET /sensor_encrypted. -/
structure EncResponse where
  status : Nat
  encrypted : Bool
  payload : Option Envelope
deriving DecidableEq, Repr

/-- GET /sensor_encrypted: the requested `?algo=` name is used only when
it is truthy (non-empty) and resolves VERBATIM (no case normalization) in
`ALGORITHMS`; otherwise the handler silently falls back to
`currentEncAlgo`.  The current sensor record is then encrypted under the
chosen name; an encryption exception answers 500. -/
def sensorEncrypted (cm : CryptoModel) (serialize : SensorRecord → List Nat)
    (st : DeviceState) (curAlgo : String) (queryAlgo : Option String)
    (secret : String) : EncResponse :=
  let algoName := match queryAlgo with
    | some q => if q ≠ "" ∧ (ALGORITHMS q).isSome then q else curAlgo
    | none => curAlgo
  let data : SensorRecord := ⟨st.lastUpdate, st.temperature, st.humidity⟩
  match encryptJSON cm serialize data algoName secret with
  | Except.ok payload => { status := 200, encrypted := true,
                           payload := some payload }
  | Except.error _ => { status := 500, encrypted := false, payload := none }

end Esp32

/-! ## Theorems -/

set_option maxRecDepth 4000

namespace Esp32

/-- One append keeps the buffer within the 500-entry capacity. -/
theorem pushHistory_length_le {α : Type} (buf : List α) (e : α)
    (h : buf.length ≤ 500) : (pushHistory buf e).length ≤ 500 := by
  simp only [pushHistory]
  by_cases hlt : 500 < (buf ++ [e]).length
  · rw [if_pos hlt]
    rw [List.length_tail]
    simp at hlt ⊢
    omega
  · rw [if_neg hlt]
    simp at hlt ⊢
    omega

/-- Folding `pushHistory` over a sequence of appends, starting from any
buffer within capacity, keeps exactly the most recent 500 elements. -/
theorem foldl_pushHistory_eq {α : Type} (l : List α) :
    ∀ buf : List α, buf.length ≤ 500 →
      l.foldl pushHistory buf = (buf ++ l).drop (buf.length + l.length - 500) := by
  induction l with
  | nil =>
    intro buf h
    simp only [List.foldl_nil, List.append_nil, List.length_nil, Nat.add_zero]
    rw [show buf.length - 500 = 0 from by omega, List.drop_zero]
  | cons e l ih =>
    intro buf h
    rw [List.foldl_cons]
    by_cases hlt : buf.length < 500
    · have hp : pushHistory buf e = buf ++ [e] := by
        simp only [pushHistory]
        rw [if_neg]
        simp only [List.length_append, List.length_cons, List.length_nil]
        omega
      have hle : (buf ++ [e]).length ≤ 500 := by
        simp only [List.length_append, List.length_cons, List.length_nil]
        omega
      rw [hp, ih (buf ++ [e]) hle]
      have h3 : (buf ++ [e]) ++ l = buf ++ e :: l := by
        rw [List.append_assoc, List.singleton_append]
      have h4 : (buf ++ [e]).length + l.length - 500 =
          buf.length + (e :: l).length - 500 := by
        simp only [List.length_append, List.length_cons, List.length_nil]
        omega
      rw [h3, h4]
    · have h500 : buf.length = 500 := by omega
      cases buf with
      | nil => simp at h500
      | cons a t =>
        have ht : t.length = 499 := by
          simp only [List.length_cons] at h500
          omega
        have hp : pushHistory (a :: t) e = t ++ [e] := by
          simp only [pushHistory]
          rw [if_pos]
          · rw [List.cons_append, List.tail_cons]
          · simp only [List.cons_append, List.length_cons, List.length_append,
              List.length_nil]
            omega
        have hle : (t ++ [e]).length ≤ 500 := by
          simp only [List.length_append, List.length_cons, List.length_nil]
          omega
        rw [hp, ih (t ++ [e]) hle]
        have h1 : (t ++ [e]).length + l.length - 500 = l.length := by
          simp only [List.length_append, List.length_cons, List.length_nil]
          omega
        have h2 : (a :: t).length + (e :: l).length - 500 = l.length + 1 := by
          simp only [List.length_cons]
          omega
        have h3 : (t ++ [e]) ++ l = t ++ e :: l := by
          rw [List.append_assoc, List.singleton_append]
        rw [h1, h2, h3, List.cons_append, List.drop_succ_cons]

/-- The history built from scratch is the suffix of the append sequence of
length at most 500. -/
theorem runHistory_eq {α : Type} (l : List α) :
    runHistory l = l.drop (l.length - 500) := by
  simp only [runHistory]
  rw [foldl_pushHistory_eq l [] (by simp)]
  simp

/-- Claim C2: for every sequence of appends to the history ring buffer the
size never exceeds 500; after 501 appends the buffer holds exactly the last
500 envelopes in insertion order (the sequence with its first element
dropped), and the first-appended envelope — when it does not recur later in
the sequence — is absent. -/
theorem history_bounded_and_fifo {α : Type} (l : List α) :
    (runHistory l).length ≤ 500 ∧
    (l.length = 501 → runHistory l = l.drop 1) ∧
    (∀ x : α, l.length = 501 → l.Nodup → l.head? = some x →
      x ∉ runHistory l) := by
  refine ⟨?_, ?_, ?_⟩
  · rw [runHistory_eq, List.length_drop]
    omega
  · intro h
    rw [runHistory_eq, h]
  · intro x h hnd hx
    rw [runHistory_eq, h]
    cases l with
    | nil => simp at h
    | cons a t =>
      simp only [List.head?_cons, Option.some.injEq] at hx
      subst hx
      simp only [List.drop_succ_cons, List.drop_zero]
      exact (List.nodup_cons.mp hnd).1

/-- Witness for C2 at the concrete append sequence 0,1,…,500. -/
theorem history_bounded_and_fifo_witness :
    (runHistory (List.range 501)).length ≤ 500 ∧
    runHistory (List.range 501) = (List.range 501).drop 1 ∧
    0 ∉ runHistory (List.range 501) := by
  have h := history_bounded_and_fifo (List.range 501)
  refine ⟨h.1, h.2.1 (by simp), h.2.2 0 (by simp) (List.nodup_range 501) ?_⟩
  rw [List.range_succ_eq_map]
  rfl

end Esp32

namespace Esp32

/-- Every registered profile has key length 32 (AES) or 24 (DES). -/
theorem registry_keyLen (name : String) (p : AlgoProfile)
    (hreg : ALGORITHMS name = some p) :
    (name = "AES" ∧ p.keyLen = 32) ∨ (name = "DES" ∧ p.keyLen = 24) := by
  simp only [ALGORITHMS] at hreg
  by_cases h1 : name = "AES"
  · rw [if_pos h1] at hreg
    left
    refine ⟨h1, ?_⟩
    cases hreg
    rfl
  · rw [if_neg h1] at hreg
    by_cases h2 : name = "DES"
    · rw [if_pos h2] at hreg
      right
      refine ⟨h2, ?_⟩
      cases hreg
      rfl
    · rw [if_neg h2] at hreg
      cases hreg

/-- Claim C3: for every secret and every registered algorithm profile,
`deriveKey` is deterministic — it is a pure function of the secret and the
key length, so equal inputs give equal byte sequences — and, provided the
SHA-256 collaborator returns its contractual 32-byte digest, the result
has length exactly `profile.keyLen` (32 for AES, 24 for DES). -/
theorem deriveKey_deterministic_and_length (sha256 : String → List Nat)
    (secret : String) (name : String) (p : AlgoProfile)
    (hreg : ALGORITHMS name = some p)
    (hdig : ∀ x, (sha256 x).length = 32) :
    (deriveKey sha256 secret p.keyLen).length = p.keyLen ∧
    (∀ s k, s = secret → k = p.keyLen →
      deriveKey sha256 s k = deriveKey sha256 secret p.keyLen) ∧
    ((name = "AES" → p.keyLen = 32) ∧ (name = "DES" → p.keyLen = 24)) := by
  have hk := registry_keyLen name p hreg
  refine ⟨?_, ?_, ?_, ?_⟩
  · simp only [deriveKey]
    rw [List.length_take, hdig]
    rcases hk with ⟨_, h⟩ | ⟨_, h⟩ <;> omega
  · intro s k hs hkk
    rw [hs, hkk]
  · intro _
    rcases hk with ⟨_, h⟩ | ⟨hn, _⟩
    · exact h
    · simp_all
  · intro _
    rcases hk with ⟨hn, _⟩ | ⟨_, h⟩
    · simp_all
    · exact h

/-- Witness for C3: the AES profile with a stubbed 32-byte digest. -/
theorem deriveKey_deterministic_and_length_witness :
    (deriveKey (fun _ => List.replicate 32 0) "165743"
      (AlgoProfile.mk "aes-256-cbc" 32 16).keyLen).length =
      (AlgoProfile.mk "aes-256-cbc" 32 16).keyLen := by
  exact (deriveKey_deterministic_and_length (fun _ => List.replicate 32 0)
    "165743" "AES" ⟨"aes-256-cbc", 32, 16⟩ (by decide)
    (fun x => by simp)).1

/-- Claim C4: for every record and every registered algorithm, decryption
composed with encryption is the identity: assuming the block-cipher
collaborators are mutually inverse and parsing inverts serialization, the
envelope produced by `encryptJSON` is self-describing enough for
`decryptJSON` (the decrypt operation the spec adds to the reimplementation)
to recover the original record with the same secret. -/
theorem encrypt_decrypt_roundtrip {R : Type} (cm : CryptoModel)
    (serialize : R → List Nat) (parse : List Nat → Option R) (r : R)
    (name : String) (p : AlgoProfile) (secret : String)
    (hreg : ALGORITHMS name = some p)
    (hinv : ∀ cid key iv m, cm.dec cid key iv (cm.enc cid key iv m) = m)
    (hser : ∀ x, parse (serialize x) = some x) :
    ∃ env : Envelope,
      encryptJSON cm serialize r name secret = Except.ok env ∧
      decryptJSON cm parse env secret = Except.ok r := by
  refine ⟨{ algo := name, iv := cm.randBytes p.ivLen,
            data := cm.enc p.cipher (deriveKey cm.sha256 secret p.keyLen)
              (cm.randBytes p.ivLen) (serialize r) }, ?_, ?_⟩
  · simp only [encryptJSON]
    rw [hreg]
  · simp only [decryptJSON]
    rw [hreg]
    simp [hinv, hser]

/-- Witness for C4: a concrete round trip through the AES registry entry
with identity cipher collaborators and a singleton-list serializer. -/
theorem encrypt_decrypt_roundtrip_witness :
    ∃ env : Envelope,
      encryptJSON
        ⟨fun _ => List.replicate 32 0, fun _ _ _ m => m, fun _ _ _ m => m,
         fun n => List.replicate n 0⟩
        (fun n : Nat => [n]) 7 "AES" "165743" = Except.ok env ∧
      decryptJSON
        ⟨fun _ => List.replicate 32 0, fun _ _ _ m => m, fun _ _ _ m => m,
         fun n => List.replicate n 0⟩
        (fun l => match l with | [n] => some n | _ => none)
        env "165743" = Except.ok 7 := by
  exact encrypt_decrypt_roundtrip
    ⟨fun _ => List.replicate 32 0, fun _ _ _ m => m, fun _ _ _ m => m,
     fun n => List.replicate n 0⟩
    (fun n : Nat => [n])
    (fun l => match l with | [n] => some n | _ => none)
    7 "AES" ⟨"aes-256-cbc", 32, 16⟩ "165743"
    (by decide) (fun _ _ _ _ => rfl) (fun _ => rfl)

end Esp32

namespace Esp32

/-- Claim C1 counterexample: a /settings call carrying both a valid
`allowFanControl: true` and an unknown `algo: "XYZ"` is rejected with the
InvalidAlgorithm 400 response, yet `allowFanControl` HAS been flipped from
false to true by the call — the handler stores the coerced flag before it
validates the algorithm, so the claimed all-or-nothing atomicity fails. -/
theorem settings_invalid_algo_flag_mutated_counterexample :
    (postSettings ⟨false, false, false, 25, 60, some 0⟩ "AES"
      ⟨some (JSVal.boolean true), some (JSVal.str "XYZ")⟩
      0 none 5000).response.status = 400 ∧
    (postSettings ⟨false, false, false, 25, 60, some 0⟩ "AES"
      ⟨some (JSVal.boolean true), some (JSVal.str "XYZ")⟩
      0 none 5000).st.allowFanControl = true ∧
    (DeviceState.mk false false false 25 60 (some 0)).allowFanControl
      = false := by
  decide

/-- Claim C1 (amended): a /settings call whose `algo` field is a string
that does not resolve (after upper-casing) in the registry fails with the
InvalidAlgorithm 400 response, emits no notification, and leaves the
active algorithm and every device-state field except `allowFanControl`
unchanged; but a valid `allowFanControl` carried by the same call IS
applied before the rejection. -/
theorem settings_invalid_algo_rejected (st : DeviceState) (curAlgo : String)
    (body : SettingsBody) (now : Int) (maxAgeEnv : Option Int) (ti : Int)
    (s : String) (halgo : body.algo = some (JSVal.str s))
    (hbad : ALGORITHMS (jsToUpper s) = none) :
    (postSettings st curAlgo body now maxAgeEnv ti).response.status = 400 ∧
    (postSettings st curAlgo body now maxAgeEnv ti).response.success = false ∧
    (postSettings st curAlgo body now maxAgeEnv ti).response.message =
      "Invalid encryption algorithm. Use AES or DES." ∧
    (postSettings st curAlgo body now maxAgeEnv ti).encAlgo = curAlgo ∧
    (postSettings st curAlgo body now maxAgeEnv ti).events = [] ∧
    (postSettings st curAlgo body now maxAgeEnv ti).st =
      (match body.allowFanControl with
       | some v => { st with allowFanControl := coerceFlag v }
       | none => st) := by
  simp [postSettings, halgo, hbad]

/-- Witness for the amended C1 at the concrete counterexample call. -/
theorem settings_invalid_algo_rejected_witness :
    (postSettings ⟨false, false, false, 25, 60, some 0⟩ "AES"
      ⟨some (JSVal.boolean true), some (JSVal.str "XYZ")⟩
      0 none 5000).response.status = 400 ∧
    (postSettings ⟨false, false, false, 25, 60, some 0⟩ "AES"
      ⟨some (JSVal.boolean true), some (JSVal.str "XYZ")⟩
      0 none 5000).response.success = false ∧
    (postSettings ⟨false, false, false, 25, 60, some 0⟩ "AES"
      ⟨some (JSVal.boolean true), some (JSVal.str "XYZ")⟩
      0 none 5000).response.message =
      "Invalid encryption algorithm. Use AES or DES." ∧
    (postSettings ⟨false, false, false, 25, 60, some 0⟩ "AES"
      ⟨some (JSVal.boolean true), some (JSVal.str "XYZ")⟩
      0 none 5000).encAlgo = "AES" ∧
    (postSettings ⟨false, false, false, 25, 60, some 0⟩ "AES"
      ⟨some (JSVal.boolean true), some (JSVal.str "XYZ")⟩
      0 none 5000).events = [] ∧
    (postSettings ⟨false, false, false, 25, 60, some 0⟩ "AES"
      ⟨some (JSVal.boolean true), some (JSVal.str "XYZ")⟩
      0 none 5000).st =
      ⟨false, false, true, 25, 60, some 0⟩ := by
  exact settings_invalid_algo_rejected
    ⟨false, false, false, 25, 60, some 0⟩ "AES"
    ⟨some (JSVal.boolean true), some (JSVal.str "XYZ")⟩
    0 none 5000 "XYZ" rfl (by decide)

/-- Claim C5 counterexample: an explicit max-age override of 0 ms is falsy
in `parseInt(process.env.DATA_HEALTH_MAX_AGE_MS) || (tempInterval * 2)`,
so the code silently replaces it with the default 10000 ms; at age 7000 ms
the claim (with its stated override M = 0 < 7000) demands STALE, but the
evaluator answers OK/fresh. -/
theorem dataHealth_zero_override_counterexample :
    getDataHealth 7000 ⟨false, false, true, 25, 60, some 0⟩ (some 0) 5000 =
      ⟨"OK", some 7000, true, some 0⟩ ∧
    ¬((7000 : Int) - 0 ≤ 0) := by
  decide

/-- Claim C5 (amended): with M the resolved maximum age — the explicit
override when it is present and nonzero, twice the update-cycle period
when it is absent, unparseable, or zero — the evaluator answers status OK
with `isFresh = true` and `ageMs = now - T` when `now - T ≤ M`, status
STALE with `isFresh = false` when `now - T > M`, and
`{UNKNOWN, ageMs: null, isFresh: false}` when `lastUpdate` is absent. -/
theorem dataHealth_evaluator (now : Int) (st : DeviceState)
    (maxAgeEnv : Option Int) (ti : Int) :
    (st.lastUpdate = none →
      getDataHealth now st maxAgeEnv ti = ⟨"UNKNOWN", none, false, none⟩) ∧
    (∀ t, st.lastUpdate = some t →
      ((now - t ≤ resolvedMaxAge maxAgeEnv ti →
        getDataHealth now st maxAgeEnv ti =
          ⟨"OK", some (now - t), true, some t⟩) ∧
       (resolvedMaxAge maxAgeEnv ti < now - t →
        getDataHealth now st maxAgeEnv ti =
          ⟨"STALE", some (now - t), false, some t⟩))) := by
  constructor
  · intro h
    simp only [getDataHealth, h]
  · intro t ht
    have hunf : getDataHealth now st maxAgeEnv ti =
        { status := if now - t ≤ resolvedMaxAge maxAgeEnv ti
            then "OK" else "STALE",
          ageMs := some (now - t),
          isFresh := decide (now - t ≤ resolvedMaxAge maxAgeEnv ti),
          lastUpdate := some t } := by
      simp only [getDataHealth, ht, resolvedMaxAge]
      by_cases hd : now - t ≤ (match maxAgeEnv with
        | some m => if m = 0 then ti * 2 else m
        | none => ti * 2)
      · simp [hd]
      · simp [hd]
    rw [hunf]
    constructor <;> intro hcmp
    · rw [if_pos hcmp]
      simp [hcmp]
    · have hn : ¬(now - t ≤ resolvedMaxAge maxAgeEnv ti) := by omega
      rw [if_neg hn]
      simp [hn]

end Esp32

namespace Esp32

/-- Witness for the amended C5: a fresh reading, a stale reading, and an
absent `lastUpdate`, all at the default threshold of a 5000 ms cycle. -/
theorem dataHealth_evaluator_witness :
    getDataHealth 3000 ⟨false, false, true, 25, 60, some 0⟩ none 5000 =
      ⟨"OK", some 3000, true, some 0⟩ ∧
    getDataHealth 20000 ⟨false, false, true, 25, 60, some 0⟩ none 5000 =
      ⟨"STALE", some 20000, false, some 0⟩ ∧
    getDataHealth 3000 ⟨false, false, true, 25, 60, none⟩ none 5000 =
      ⟨"UNKNOWN", none, false, none⟩ := by
  refine ⟨?_, ?_, ?_⟩
  · exact ((dataHealth_evaluator 3000 ⟨false, false, true, 25, 60, some 0⟩
      none 5000).2 0 rfl).1 (by decide)
  · exact ((dataHealth_evaluator 20000 ⟨false, false, true, 25, 60, some 0⟩
      none 5000).2 0 rfl).2 (by decide)
  · exact (dataHealth_evaluator 3000 ⟨false, false, true, 25, 60, none⟩
      none 5000).1 rfl

/-- Claim C6: when `allowFanControl` is false, every /fan call — whatever
the requested value — is rejected with the 403 FanControlDisabled response
before the value is interpreted, with the whole device state (fan
included) and the event stream untouched; when `allowFanControl` is true
and the value matches neither an ON nor an OFF representation, the call is
rejected with the 400 InvalidState response, again changing nothing. -/
theorem fan_rejections (st : DeviceState) (v : JSVal) (now : Int) :
    (st.allowFanControl = false →
      postFan st v now =
        ⟨st, [], ⟨403, false, none, "Fan control is disabled"⟩⟩) ∧
    (st.allowFanControl = true → isOnVal v = false → isOffVal v = false →
      postFan st v now =
        ⟨st, [], ⟨400, false, none, "Invalid fan state"⟩⟩) := by
  constructor
  · intro h
    simp [postFan, h]
  · intro h hon hoff
    simp [postFan, h, hon, hoff]

/-- Witness for C6: a disabled-fan call with a valid "ON" value, and an
enabled-fan call with an unrecognized value. -/
theorem fan_rejections_witness :
    postFan ⟨false, false, false, 25, 60, some 0⟩ (JSVal.str "ON") 9 =
      ⟨⟨false, false, false, 25, 60, some 0⟩, [],
       ⟨403, false, none, "Fan control is disabled"⟩⟩ ∧
    postFan ⟨false, false, true, 25, 60, some 0⟩ (JSVal.str "banana") 9 =
      ⟨⟨false, false, true, 25, 60, some 0⟩, [],
       ⟨400, false, none, "Invalid fan state"⟩⟩ := by
  constructor
  · exact (fan_rejections ⟨false, false, false, 25, 60, some 0⟩
      (JSVal.str "ON") 9).1 rfl
  · exact (fan_rejections ⟨false, false, true, 25, 60, some 0⟩
      (JSVal.str "banana") 9).2 rfl (by decide) (by decide)

/-- Claim C7 counterexample: requesting the unknown algorithm "XYZ" from
/sensor_encrypted does NOT fail with UnsupportedAlgorithm — the handler
silently falls back to the current algorithm and answers 200 with an
envelope marked "AES". -/
theorem export_unknown_algo_silently_defaults_counterexample :
    (sensorEncrypted
      ⟨fun _ => List.replicate 32 0, fun _ _ _ m => m, fun _ _ _ m => m,
       fun n => List.replicate n 0⟩
      (fun r => [r.temperature.natAbs, r.humidity.natAbs])
      ⟨false, false, true, 25, 60, some 0⟩ "AES" (some "XYZ")
      "165743").status = 200 ∧
    (sensorEncrypted
      ⟨fun _ => List.replicate 32 0, fun _ _ _ m => m, fun _ _ _ m => m,
       fun n => List.replicate n 0⟩
      (fun r => [r.temperature.natAbs, r.humidity.natAbs])
      ⟨false, false, true, 25, 60, some 0⟩ "AES" (some "XYZ")
      "165743").encrypted = true ∧
    (sensorEncrypted
      ⟨fun _ => List.replicate 32 0, fun _ _ _ m => m, fun _ _ _ m => m,
       fun n => List.replicate n 0⟩
      (fun r => [r.temperature.natAbs, r.humidity.natAbs])
      ⟨false, false, true, 25, 60, some 0⟩ "AES" (some "XYZ")
      "165743").payload.map Envelope.algo = some "AES" ∧
    ALGORITHMS "XYZ" = none := by
  decide

/-- Claim C7 (amended): the encrypted-export handler resolves an explicit
`?algo=` name VERBATIM — no upper-casing — and a name that does not
resolve (so also any lower-case spelling of a supported name) makes the
handler behave exactly as if no name were given, silently encrypting under
the current active algorithm; only a direct `encryptJSON` call with an
unresolved name fails, with the `Unsupported algorithm` error. -/
theorem export_unknown_algo_fallback (cm : CryptoModel)
    (serialize : SensorRecord → List Nat) (st : DeviceState)
    (curAlgo : String) (q : String) (secret : String)
    (hq : ALGORITHMS q = none) :
    sensorEncrypted cm serialize st curAlgo (some q) secret =
      sensorEncrypted cm serialize st curAlgo none secret ∧
    (∀ (R : Type) (ser : R → List Nat) (r : R),
      encryptJSON cm ser r q secret =
        Except.error ("Unsupported algorithm: " ++ q)) := by
  constructor
  · simp [sensorEncrypted, hq]
  · intro R ser r
    simp only [encryptJSON]
    rw [hq]

/-- Witness for the amended C7: the lower-case name "aes" does not resolve
verbatim, so the export under current algorithm DES ignores it. -/
theorem export_unknown_algo_fallback_witness :
    sensorEncrypted
      ⟨fun _ => List.replicate 32 0, fun _ _ _ m => m, fun _ _ _ m => m,
       fun n => List.replicate n 0⟩
      (fun r => [r.temperature.natAbs, r.humidity.natAbs])
      ⟨false, false, true, 25, 60, some 0⟩ "DES" (some "aes") "165743" =
    sensorEncrypted
      ⟨fun _ => List.replicate 32 0, fun _ _ _ m => m, fun _ _ _ m => m,
       fun n => List.replicate n 0⟩
      (fun r => [r.temperature.natAbs, r.humidity.natAbs])
      ⟨false, false, true, 25, 60, some 0⟩ "DES" none "165743" := by
  exact (export_unknown_algo_fallback
    ⟨fun _ => List.replicate 32 0, fun _ _ _ m => m, fun _ _ _ m => m,
     fun n => List.replicate n 0⟩
    (fun r => [r.temperature.natAbs, r.humidity.natAbs])
    ⟨false, false, true, 25, 60, some 0⟩ "DES" "aes" "165743"
    (by decide)).1

end Esp32

namespace Esp32

/-- Claim C8: a tick whose history encryption fails (here: the active
algorithm does not resolve, making `encryptJSON` throw into the
try/catch) still completes — `updateSensorData` is a total function, so
the failure never propagates: the device-state mutation (new temperature,
humidity and `lastUpdate`) is kept, the history buffer is simply left
unchanged, and both the plain-data `temperatureUpdated` notification and
the `dataHealthUpdated` notification are still emitted, so the periodic
schedule continues past the failed tick. -/
theorem tick_encryption_failure_isolated (cm : CryptoModel)
    (serialize : SensorRecord → List Nat) (st : DeviceState)
    (hist : List Envelope) (curAlgo : String) (secret : String)
    (newTemp newHum : Int) (now : Int) (maxAgeEnv : Option Int) (ti : Int)
    (hbad : ALGORITHMS curAlgo = none) :
    (updateSensorData cm serialize st hist curAlgo secret newTemp newHum
      now maxAgeEnv ti).st =
      { st with temperature := newTemp, humidity := newHum,
                lastUpdate := some now } ∧
    (updateSensorData cm serialize st hist curAlgo secret newTemp newHum
      now maxAgeEnv ti).hist = hist ∧
    (updateSensorData cm serialize st hist curAlgo secret newTemp newHum
      now maxAgeEnv ti).events =
      [Event.temperatureUpdated newTemp newHum (some now),
       Event.dataHealthUpdated (getDataHealth now
         { st with temperature := newTemp, humidity := newHum,
                   lastUpdate := some now } maxAgeEnv ti)] := by
  refine ⟨rfl, ?_, rfl⟩
  simp only [updateSensorData, encryptJSON]
  rw [hbad]

/-- Witness for C8: a tick under the unregistered algorithm name "XYZ". -/
theorem tick_encryption_failure_isolated_witness :
    (updateSensorData
      ⟨fun _ => List.replicate 32 0, fun _ _ _ m => m, fun _ _ _ m => m,
       fun n => List.replicate n 0⟩
      (fun r => [r.temperature.natAbs, r.humidity.natAbs])
      ⟨false, false, true, 25, 60, some 0⟩ [] "XYZ" "165743"
      30 70 9 none 5000).st =
      ⟨false, false, true, 30, 70, some 9⟩ ∧
    (updateSensorData
      ⟨fun _ => List.replicate 32 0, fun _ _ _ m => m, fun _ _ _ m => m,
       fun n => List.replicate n 0⟩
      (fun r => [r.temperature.natAbs, r.humidity.natAbs])
      ⟨false, false, true, 25, 60, some 0⟩ [] "XYZ" "165743"
      30 70 9 none 5000).hist = [] ∧
    (updateSensorData
      ⟨fun _ => List.replicate 32 0, fun _ _ _ m => m, fun _ _ _ m => m,
       fun n => List.replicate n 0⟩
      (fun r => [r.temperature.natAbs, r.humidity.natAbs])
      ⟨false, false, true, 25, 60, some 0⟩ [] "XYZ" "165743"
      30 70 9 none 5000).events =
      [Event.temperatureUpdated 30 70 (some 9),
       Event.dataHealthUpdated
         (getDataHealth 9 ⟨false, false, true, 30, 70, some 9⟩
           none 5000)] := by
  exact tick_encryption_failure_isolated
    ⟨fun _ => List.replicate 32 0, fun _ _ _ m => m, fun _ _ _ m => m,
     fun n => List.replicate n 0⟩
    (fun r => [r.temperature.natAbs, r.humidity.natAbs])
    ⟨false, false, true, 25, 60, some 0⟩ [] "XYZ" "165743"
    30 70 9 none 5000 (by decide)

/-- Claim C9: a /led call whose value matches neither a recognized ON
representation ('ON', 1, true) nor a recognized OFF representation
('OFF', 0, false) leaves the LED state unchanged and signals no error:
the handler still answers `success: true` reporting the (unchanged)
LED. -/
theorem led_unrecognized_ignored (st : DeviceState) (v : JSVal) (now : Int)
    (hon : isOnVal v = false) (hoff : isOffVal v = false) :
    (postLed st v now).st.led = st.led ∧
    (postLed st v now).response.success = true ∧
    (postLed st v now).response.led = st.led := by
  simp [postLed, hon, hoff]

/-- Witness for C9: the unrecognized value "banana". -/
theorem led_unrecognized_ignored_witness :
    (postLed ⟨true, false, true, 25, 60, some 0⟩
      (JSVal.str "banana") 9).st.led = true ∧
    (postLed ⟨true, false, true, 25, 60, some 0⟩
      (JSVal.str "banana") 9).response.success = true ∧
    (postLed ⟨true, false, true, 25, 60, some 0⟩
      (JSVal.str "banana") 9).response.led = true := by
  exact led_unrecognized_ignored ⟨true, false, true, 25, 60, some 0⟩
    (JSVal.str "banana") 9 (by decide) (by decide)

/-- Claim C10: every /led call — recognized value or not — sets
`lastUpdate` to the current time, broadcasts exactly one `ledStateChanged`
event carrying the post-call LED value and that timestamp, and answers
`success: true`; no device-state field other than `led` and `lastUpdate`
is modified, and when the value is unrecognized `led` itself is unchanged
(so the broadcast carries the old value). -/
theorem led_frame_effects (st : DeviceState) (v : JSVal) (now : Int) :
    (postLed st v now).st.lastUpdate = some now ∧
    (postLed st v now).response.success = true ∧
    (postLed st v now).events =
      [Event.ledStateChanged ((postLed st v now).st.led) (some now)] ∧
    (postLed st v now).st.fan = st.fan ∧
    (postLed st v now).st.allowFanControl = st.allowFanControl ∧
    (postLed st v now).st.temperature = st.temperature ∧
    (postLed st v now).st.humidity = st.humidity ∧
    (isOnVal v = false → isOffVal v = false →
      (postLed st v now).st.led = st.led) := by
  by_cases hon : isOnVal v
  · simp [postLed, hon]
  · by_cases hoff : isOffVal v
    · simp [postLed, hon, hoff]
    · simp [postLed, hon, hoff]

/-- Witness for C10 at the unrecognized value `null`. -/
theorem led_frame_effects_witness :
    (postLed ⟨true, true, false, 25, 60, some 0⟩ JSVal.jsNull 9).st.lastUpdate
      = some 9 ∧
    (postLed ⟨true, true, false, 25, 60, some 0⟩ JSVal.jsNull 9).response.success
      = true ∧
    (postLed ⟨true, true, false, 25, 60, some 0⟩ JSVal.jsNull 9).events =
      [Event.ledStateChanged
        ((postLed ⟨true, true, false, 25, 60, some 0⟩ JSVal.jsNull 9).st.led)
        (some 9)] ∧
    (postLed ⟨true, true, false, 25, 60, some 0⟩ JSVal.jsNull 9).st.fan
      = true ∧
    (postLed ⟨true, true, false, 25, 60, some 0⟩ JSVal.jsNull 9).st.allowFanControl
      = false ∧
    (postLed ⟨true, true, false, 25, 60, some 0⟩ JSVal.jsNull 9).st.temperature
      = 25 ∧
    (postLed ⟨true, true, false, 25, 60, some 0⟩ JSVal.jsNull 9).st.humidity
      = 60 ∧
    (isOnVal JSVal.jsNull = false → isOffVal JSVal.jsNull = false →
      (postLed ⟨true, true, false, 25, 60, some 0⟩ JSVal.jsNull 9).st.led
        = true) := by
  exact led_frame_effects ⟨true, true, false, 25, 60, some 0⟩ JSVal.jsNull 9

end Esp32
